import Mathlib

/-
  Shallow embedding of the wandb artifact synchronization engine.

  Source of authority: src/wandb/filesync/upload_job.py (UploadJob.run, UploadJob.push).
  Components whose code is not present in src (manifest dedup, upsert/finish contract,
  ArtifactHandle.wait) are modelled from the spec and marked as such.
-/

namespace Wandb

/-- Decidable equality for Except, needed so that concrete witnesses evaluate. -/
instance {ε α : Type} [DecidableEq ε] [DecidableEq α] : DecidableEq (Except ε α) := by
  intro x y
  cases x <;> cases y <;> simp <;> infer_instance

/-- A Python exception value as far as UploadJob.push observes it: the class name
(type(e).__name__), the str(e) message, and the optional e.response.content payload
present when the exception carries a transport response. -/
structure Exc where
  ty : String
  msg : String
  response : Option String
deriving DecidableEq, Repr

/-- A user-visible wandb.termerror message emitted by UploadJob.push, kept as structured
data: uploadError corresponds to the 'Error uploading "{name}": {type}, {message}' lines
(upload_job.py lines 95-99 and 162-167), srpException to the 'SRP: exception in push'
line of the outermost except handler (line 171). -/
inductive TermMsg where
  | uploadError (name : String) (ty : String) (msg : String)
  | srpException (msg : String)
deriving DecidableEq, Repr

/-- The side effects UploadJob.push applies to its collaborators, in order:
failed = arguments of stats.update_failed_file calls,
deduped = arguments of stats.set_file_deduped calls,
termerrors = wandb.termerror messages emitted,
uploadCalls = number of api.upload_file_async invocations. -/
structure Effects where
  failed : List String
  deduped : List String
  termerrors : List TermMsg
  uploadCalls : Nat
deriving DecidableEq, Repr

/-- UploadJob construction arguments that matter to push/run (upload_job.py __init__).
save_fn models the optional externally supplied save function together with the outcome
of its single invocation: Except.error e when it raises e, Except.ok d when it returns
with dedup flag d. save_path and path are the same attribute in the source. -/
structure UploadJob where
  silent : Bool
  save_name : String
  save_path : String
  artifact_id : Option String
  md5 : Option String
  copied : Bool
  save_fn : Option (Except Exc Bool)
  digest : Option String
deriving DecidableEq, Repr

/-- The behavior of the external collaborators during one run of a job:
createManifest = outcome of api.create_artifact_manifest (uploadUrl which may be null,
uploadHeaders); getProject = outcome of api.get_project; uploadUrls = outcome of
api.upload_urls_async (headers, and the url for save_name, which may be null);
openFile / uploadFile = the exception raised by open(save_path) / upload_file_async,
if any; fileExists = os.path.isfile(save_path) at cleanup time; removeExc = the
exception raised by os.remove(save_path), if any. -/
structure Env where
  createManifest : Except Exc (Option String × List String)
  getProject : Except Exc String
  uploadUrls : Except Exc (List String × Option String)
  openFile : Option Exc
  uploadFile : Option Exc
  fileExists : Bool
  removeExc : Option Exc
deriving DecidableEq, Repr

/-- Result of UploadJob.push: Except.ok b when push returns the boolean b,
Except.error e when the exception e propagates out of push; plus the side effects. -/
structure PushResult where
  result : Except Exc Bool
  eff : Effects
deriving DecidableEq, Repr

/-- Embedding of UploadJob.push (upload_job.py lines 78-172).

Branch structure follows the source: if save_fn is set, invoke it, turning a raised
exception into stats.update_failed_file(save_path), a termerror naming save_path with
the exception type and message (the message being e.response.content when the exception
has a response attribute), and return False; on normal return, record dedup against
save_path iff the save function reported dedup, and return True.

Otherwise obtain the upload url: via create_artifact_manifest when md5 is set, else via
get_project followed by upload_urls_async. An exception from these backend calls reaches
the outermost except handler, which emits the SRP termerror and re-raises. A null upload
url records stats.set_file_deduped(save_name) and returns True without any upload call.
A non-null url opens the file and calls upload_file_async; an exception from either is
caught, recorded via stats.update_failed_file(save_name), reported via termerror (naming
save_name) unless silent, and push returns False. -/
def push (job : UploadJob) (env : Env) : PushResult :=
  match job.save_fn with
  | some sfn =>
    match sfn with
    | .error e =>
      ⟨.ok false,
       ⟨[job.save_path], [],
        [TermMsg.uploadError job.save_path e.ty (e.response.getD e.msg)], 0⟩⟩
    | .ok deduped =>
      ⟨.ok true, ⟨[], if deduped then [job.save_path] else [], [], 0⟩⟩
  | none =>
    let urlRes : Except Exc (Option String) :=
      match job.md5 with
      | some _ =>
        match env.createManifest with
        | .error e => .error e
        | .ok (u, _hs) => .ok u
      | none =>
        match env.getProject with
        | .error e => .error e
        | .ok _project =>
          match env.uploadUrls with
          | .error e => .error e
          | .ok (_hs, u) => .ok u
    match urlRes with
    | .error e =>
      ⟨.error e, ⟨[], [], [TermMsg.srpException e.msg], 0⟩⟩
    | .ok none =>
      ⟨.ok true, ⟨[], [job.save_name], [], 0⟩⟩
    | .ok (some _url) =>
      match env.openFile with
      | some e =>
        ⟨.ok false,
         ⟨[job.save_name], [],
          if job.silent then [] else [TermMsg.uploadError job.save_name e.ty e.msg], 0⟩⟩
      | none =>
        match env.uploadFile with
        | some e =>
          ⟨.ok false,
           ⟨[job.save_name], [],
            if job.silent then [] else [TermMsg.uploadError job.save_name e.ty e.msg], 1⟩⟩
        | none =>
          ⟨.ok true, ⟨[], [], [], 1⟩⟩

/-- Result of UploadJob.run: events = the success flags of the EventJobDone events put
on the done queue, in order; pushSuccessCalls = the (artifact_id, save_name) arguments
of file_stream.push_success calls; fileExistsAfter = whether the file at save_path still
exists when run terminates; raised = the exception propagating out of run, if any. -/
structure RunResult where
  events : List Bool
  pushSuccessCalls : List (Option String × String)
  fileExistsAfter : Bool
  raised : Option Exc
  eff : Effects
deriving DecidableEq, Repr

/-- The value of the local variable success in UploadJob.run: initialized False, set
from push's return value when push returns normally, left False when push raises. -/
def successOf : Except Exc Bool → Bool
  | .ok b => b
  | .error _ => false

/-- The exception propagating out of run when push terminated with the given result and
the finally block itself raised nothing. -/
def raisedOf : Except Exc Bool → Option Exc
  | .ok _ => none
  | .error e => some e

/-- Embedding of UploadJob.run (upload_job.py lines 62-76). success starts False and is
set from push when push returns; the finally block first removes save_path when copied
and the file exists (an exception from os.remove aborts the rest of the finally block
and replaces any pending exception), then calls push_success on success, then puts
exactly one EventJobDone on the done queue; an exception raised by push propagates out
of run after the finally block completes. -/
def run (job : UploadJob) (env : Env) : RunResult :=
  let pr := push job env
  let success : Bool := successOf pr.result
  let raisedPush : Option Exc := raisedOf pr.result
  match job.copied && env.fileExists, env.removeExc with
  | true, some e => ⟨[], [], true, some e, pr.eff⟩
  | true, none =>
    ⟨[success], if success then [(job.artifact_id, job.save_name)] else [],
     false, raisedPush, pr.eff⟩
  | false, _ =>
    ⟨[success], if success then [(job.artifact_id, job.save_name)] else [],
     env.fileExists, raisedPush, pr.eff⟩

/-- Modelled from the spec: the ManifestEntry record of section 3 (the manifest/dedup
code is not under src, only its test test_local_references is). An entry with a non-null
ref points to data owned elsewhere and is never itself uploaded. -/
structure ManifestEntry where
  logical_path : String
  digest : Option String
  ref : Option String
  size : Nat
  local_path : Option String
deriving DecidableEq, Repr

/-- Modelled from the spec: the process-wide cross-artifact dedup state of sections 2-3.
cache records the digests of content already uploaded (the digest cache keyed by content
digest); uploads is the chronological log of upload events, one digest per actual upload
performed by the process. -/
structure DedupState where
  cache : List String
  uploads : List String
deriving DecidableEq, Repr

/-- Modelled from the spec: Manifest.add of section 4.1 (code not under src). Adding a
logical path already present in the manifest fails with a DuplicatePathError naming the
path; adding content whose digest is already in the process-wide cache yields a
reference entry (non-null ref, no upload scheduled); otherwise a plain entry with
ref = null that will be uploaded when the artifact is logged. -/
def addFile (m : List ManifestEntry) (cache : List String) (p d : String) :
    Except String ManifestEntry :=
  if m.any fun e => e.logical_path == p then .error p
  else if d ∈ cache then .ok ⟨p, some d, some d, 0, none⟩
  else .ok ⟨p, some d, none, 0, none⟩

/-- Modelled from the spec: the atomic check-and-reserve performed for one manifest
entry when its artifact is logged (section 5): an entry with ref = null and a digest not
yet in the cache is uploaded exactly once and its digest reserved; reference entries and
already-cached digests transfer nothing. -/
def uploadStep (s : DedupState) (e : ManifestEntry) : DedupState :=
  match e.ref, e.digest with
  | none, some d => if d ∈ s.cache then s else ⟨d :: s.cache, s.uploads ++ [d]⟩
  | _, _ => s

/-- Modelled from the spec: logging one artifact uploads its surviving entries in order
against the process-wide dedup state. -/
def logArtifact (s : DedupState) (m : List ManifestEntry) : DedupState :=
  m.foldl uploadStep s

/-- Modelled from the spec: a whole process run, logging a sequence of artifacts against
one process-wide dedup state. -/
def runTrace (s : DedupState) (ms : List (List ManifestEntry)) : DedupState :=
  ms.foldl logArtifact s

/-- Outcome of the upsert/finish contract check of section 4.4: typeError means the call
failed fast with a type/contract error before any network call was made; submitted means
the network operation was performed. -/
inductive ContractOutcome where
  | typeError
  | submitted
deriving DecidableEq, Repr

/-- Modelled from the spec: run.upsert_artifact (code not under src, only the tests
test_artifact_upsert_no_id / _group_id / _distributed_id). With no ambient run group and
no explicit distributed id it fails fast with a TypeError before any network call;
otherwise the upsert is submitted. -/
def upsert_artifact (group distributed_id : Option String) : ContractOutcome :=
  match group, distributed_id with
  | none, none => .typeError
  | _, _ => .submitted

/-- Modelled from the spec: run.finish_artifact (code not under src, only its tests).
Requires either ambient group membership or an explicit distributed id; with neither it
fails fast with the same class of contract error. -/
def finish_artifact (group distributed_id : Option String) : ContractOutcome :=
  match group, distributed_id with
  | none, none => .typeError
  | _, _ => .submitted

/-- Errors an ArtifactHandle operation can raise: the timeout error of wait, distinct
from a transfer failure. -/
inductive ArtifactError where
  | waitTimeoutError
  | transferFailure
deriving DecidableEq, Repr

/-- Result of ArtifactHandle.wait: the artifact became terminal after elapsed time
units, or an error was raised after elapsed time units. -/
inductive WaitResult where
  | ready (elapsed : Nat)
  | raised (e : ArtifactError) (elapsed : Nat)
deriving DecidableEq, Repr

/-- Modelled from the spec: the polling loop of ArtifactHandle.wait (section 4.5, code
not under src, only the tests test_artifact_wait_success / _failure). terminal t tells
whether the artifact is terminal at time t (time in microseconds); each round first
polls, then checks the deadline, then sleeps the poll interval capped by the remaining
time, never sleeping past the requested deadline. fuel bounds the recursion. -/
def waitPoll (terminal : Nat → Bool) (timeout pollInterval : Nat) :
    Nat → Nat → WaitResult
  | 0, t => .raised .waitTimeoutError t
  | fuel + 1, t =>
    if terminal t then .ready t
    else if timeout ≤ t then .raised .waitTimeoutError t
    else waitPoll terminal timeout pollInterval fuel (t + min pollInterval (timeout - t))

/-- Modelled from the spec: ArtifactHandle.wait(timeout) starts polling at time 0. -/
def wait (terminal : Nat → Bool) (timeout pollInterval : Nat) : WaitResult :=
  waitPoll terminal timeout pollInterval (timeout + 1) 0

lemma successOf_eq_true (r : Except Exc Bool) : successOf r = true ↔ r = .ok true := by
  cases r <;> simp [successOf]

/-- C2 counterexample: a concrete run() execution with NO completion event. The job is
a copied md5-path job whose backend call raises (push propagates the HTTPError), and
whose temp-file remove also raises: the finally block aborts before done_queue.put, so
events = [] — refuting the claim that every executed run() places exactly one completion
event on the done queue, and that a raised push exception yields a failure event rather
than no event. -/
theorem C2_counterexample :
    (push ⟨false, "cn", "cp", some "cart", some "cm5", true, none, none⟩
      ⟨.error ⟨"HTTPError", "backend down", none⟩, .ok "proj", .ok ([], none), none,
        none, true, some ⟨"OSError", "unlink denied", none⟩⟩).result =
      .error ⟨"HTTPError", "backend down", none⟩ ∧
    (run ⟨false, "cn", "cp", some "cart", some "cm5", true, none, none⟩
      ⟨.error ⟨"HTTPError", "backend down", none⟩, .ok "proj", .ok ([], none), none,
        none, true, some ⟨"OSError", "unlink denied", none⟩⟩).events = [] :=
  ⟨rfl, rfl⟩

/-- C2 amended: for every UploadJob whose run() is executed and whose cleanup remove
step, when performed, does not itself raise, exactly one completion event is placed on
the done queue, carrying the success flag determined by push; in particular when push
raises an unexpected exception (here: a backend exception from
create_artifact_manifest), the single event is a failure event rather than no event.
When the cleanup remove raises, no event is enqueued (see the counterexample). -/
theorem C2_exactly_one_completion_event (job : UploadJob)
    (cm : Except Exc (Option String × List String)) (gp : Except Exc String)
    (uu : Except Exc (List String × Option String)) (opf upf : Option Exc) (fe : Bool) :
    ((run job ⟨cm, gp, uu, opf, upf, fe, none⟩).events =
      [successOf (push job ⟨cm, gp, uu, opf, upf, fe, none⟩).result]) ∧
    (∀ (silent : Bool) (sn sp : String) (aid : Option String) (m : String) (cp : Bool)
      (dg : Option String) (e : Exc),
      (run ⟨silent, sn, sp, aid, some m, cp, none, dg⟩
        ⟨.error e, gp, uu, opf, upf, fe, none⟩).events = [false]) := by
  constructor
  · cases h : job.copied && fe <;> simp [run, h]
  · intro silent sn sp aid m cp dg e
    cases h : cp && fe <;> simp [run, push, h, successOf]

/-- C3: for every UploadJob constructed with copied = true whose cleanup remove step
does not raise, the temporary file at the job's save path is absent from disk after
run(), whatever the outcome of push (success, returned failure, or raised exception). -/
theorem C3_temp_file_removed (job : UploadJob) (env : Env)
    (hcopied : job.copied = true) (hrm : env.removeExc = none) :
    (run job env).fileExistsAfter = false := by
  cases hfe : env.fileExists <;> simp [run, hcopied, hfe, hrm]

/-- C3 witness: a concrete copied job whose push succeeds; the file is gone after run. -/
theorem C3_temp_file_removed_witness :
    (run ⟨false, "n", "p", none, none, true, some (.ok false), none⟩
      ⟨.ok (none, []), .ok "proj", .ok ([], none), none, none, true, none⟩).fileExistsAfter
      = false :=
  C3_temp_file_removed _ _ rfl rfl

/-- C4 counterexample: a concrete job whose push succeeded but whose temp-file deletion
raised an OSError: the completion event is NOT delivered (events = []), push_success is
NOT invoked, and the cleanup exception replaces the transfer outcome — refuting the
claim that the original result is still delivered. -/
theorem C4_counterexample :
    (push ⟨false, "n", "p", some "art", none, true, some (.ok false), none⟩
      ⟨.ok (none, []), .ok "proj", .ok ([], none), none, none, true,
        some ⟨"OSError", "remove failed", none⟩⟩).result = .ok true ∧
    (run ⟨false, "n", "p", some "art", none, true, some (.ok false), none⟩
      ⟨.ok (none, []), .ok "proj", .ok ([], none), none, none, true,
        some ⟨"OSError", "remove failed", none⟩⟩).events = [] ∧
    (run ⟨false, "n", "p", some "art", none, true, some (.ok false), none⟩
      ⟨.ok (none, []), .ok "proj", .ok ([], none), none, none, true,
        some ⟨"OSError", "remove failed", none⟩⟩).pushSuccessCalls = [] ∧
    (run ⟨false, "n", "p", some "art", none, true, some (.ok false), none⟩
      ⟨.ok (none, []), .ok "proj", .ok ([], none), none, none, true,
        some ⟨"OSError", "remove failed", none⟩⟩).raised =
      some ⟨"OSError", "remove failed", none⟩ :=
  ⟨rfl, rfl, rfl, rfl⟩

/-- C4 amended: if the temp-file deletion step of an UploadJob's cleanup raises, the
cleanup error DOES mask the transfer outcome: no completion event is enqueued,
push_success is not invoked even when the transfer succeeded, and the cleanup exception
is what propagates out of run. -/
theorem C4_cleanup_error_masks (job : UploadJob) (env : Env) (e : Exc)
    (hc : job.copied = true) (hf : env.fileExists = true) (hr : env.removeExc = some e) :
    (run job env).events = [] ∧ (run job env).pushSuccessCalls = [] ∧
    (run job env).raised = some e := by
  simp [run, hc, hf, hr]

/-- C4 amended witness: the amended behavior at the counterexample's concrete input. -/
theorem C4_cleanup_error_masks_witness :
    (run ⟨false, "n", "p", some "art", none, true, some (.ok false), none⟩
      ⟨.ok (none, []), .ok "proj", .ok ([], none), none, none, true,
        some ⟨"OSError", "remove failed", none⟩⟩).events = [] ∧
    (run ⟨false, "n", "p", some "art", none, true, some (.ok false), none⟩
      ⟨.ok (none, []), .ok "proj", .ok ([], none), none, none, true,
        some ⟨"OSError", "remove failed", none⟩⟩).pushSuccessCalls = [] ∧
    (run ⟨false, "n", "p", some "art", none, true, some (.ok false), none⟩
      ⟨.ok (none, []), .ok "proj", .ok ([], none), none, none, true,
        some ⟨"OSError", "remove failed", none⟩⟩).raised =
      some ⟨"OSError", "remove failed", none⟩ :=
  C4_cleanup_error_masks _ _ _ rfl rfl rfl

/-- C5: on the custom save path, a raising save_fn makes push record the file as failed
(under save_path), emit a caller-visible error naming save_path with the exception type
and message — the message being the embedded response body when the exception carries a
response attribute — and return false without re-raising; a non-raising save_fn makes
push return true with the file recorded as deduped exactly when save_fn reported
dedup. -/
theorem C5_save_fn_path (silent : Bool) (sn sp : String) (aid mm : Option String)
    (cp : Bool) (dg : Option String) (env : Env) (e : Exc) (d : Bool) :
    (push ⟨silent, sn, sp, aid, mm, cp, some (.error e), dg⟩ env =
      ⟨.ok false, ⟨[sp], [],
        [TermMsg.uploadError sp e.ty (e.response.getD e.msg)], 0⟩⟩) ∧
    (push ⟨silent, sn, sp, aid, mm, cp, some (.ok d), dg⟩ env =
      ⟨.ok true, ⟨[], if d then [sp] else [], [], 0⟩⟩) :=
  ⟨rfl, rfl⟩

/-- C6: on the classic signed-URL path, a null upload URL for the file's save name makes
push record the file as deduped (under save_name) and return true, with zero transport
upload invocations and no failure or error message. -/
theorem C6_null_url_dedup (silent : Bool) (sn sp : String) (aid : Option String)
    (cp : Bool) (dg : Option String) (proj : String) (hs : List String)
    (cm : Except Exc (Option String × List String)) (opf upf : Option Exc)
    (fe : Bool) (re : Option Exc) :
    push ⟨silent, sn, sp, aid, none, cp, none, dg⟩
      ⟨cm, .ok proj, .ok (hs, none), opf, upf, fe, re⟩ =
      ⟨.ok true, ⟨[], [sn], [], 0⟩⟩ :=
  rfl

/-- C9: with the cleanup remove step, when performed, not itself raising, push_success
is invoked exactly once — with the job's artifact id and save name — for a job whose
push completed with success, and never for a job that completed with failure. -/
theorem C9_push_success_exactly_once (job : UploadJob) (env : Env)
    (hrm : job.copied = true → env.fileExists = true → env.removeExc = none) :
    ((push job env).result = .ok true →
      (run job env).pushSuccessCalls = [(job.artifact_id, job.save_name)]) ∧
    ((push job env).result ≠ .ok true → (run job env).pushSuccessCalls = []) := by
  have hs := successOf_eq_true (push job env).result
  cases h : job.copied && env.fileExists with
  | true =>
    have hc : job.copied = true := by
      cases hcp : job.copied <;> simp [hcp] at h ⊢
    have hf : env.fileExists = true := by
      cases hfe : env.fileExists <;> simp [hfe] at h ⊢
    have hr := hrm hc hf
    constructor
    · intro hok
      simp [run, h, hr, hs.mpr hok]
    · intro hko
      have : successOf (push job env).result = false := by
        cases hb : successOf (push job env).result
        · rfl
        · exact absurd (hs.mp hb) hko
      simp [run, h, hr, this]
  | false =>
    constructor
    · intro hok
      simp [run, h, hs.mpr hok]
    · intro hko
      have : successOf (push job env).result = false := by
        cases hb : successOf (push job env).result
        · rfl
        · exact absurd (hs.mp hb) hko
      simp [run, h, this]

/-- C9 witness: a concrete successful artifact job yields exactly one push_success call,
and a concrete failed job yields none. -/
theorem C9_push_success_exactly_once_witness :
    ((push ⟨false, "n", "p", some "art", none, false, some (.ok false), none⟩
        ⟨.ok (none, []), .ok "proj", .ok ([], none), none, none, false, none⟩).result
        = .ok true →
      (run ⟨false, "n", "p", some "art", none, false, some (.ok false), none⟩
        ⟨.ok (none, []), .ok "proj", .ok ([], none), none, none, false, none⟩).pushSuccessCalls
        = [(some "art", "n")]) ∧
    ((push ⟨false, "n", "p", some "art", none, false, some (.ok false), none⟩
        ⟨.ok (none, []), .ok "proj", .ok ([], none), none, none, false, none⟩).result
        ≠ .ok true →
      (run ⟨false, "n", "p", some "art", none, false, some (.ok false), none⟩
        ⟨.ok (none, []), .ok "proj", .ok ([], none), none, none, false, none⟩).pushSuccessCalls
        = []) :=
  C9_push_success_exactly_once _ _ (fun hc _ => by simp at hc)

/-- C10 counterexample: a concrete backend-raise execution in which the frozen claim's
run conjunct fails. The classic-path job has a copied temp file whose remove raises: the
backend exception from get_project does propagate out of push, but run enqueues NO
failure completion event, and what propagates out of run is the remove exception, not
the backend one. -/
theorem C10_counterexample :
    (push ⟨false, "xn", "xp", none, none, true, none, none⟩
      ⟨.ok (none, []), .error ⟨"ConnectionError", "refused", none⟩, .ok ([], none),
        none, none, true, some ⟨"PermissionError", "unlink denied", none⟩⟩).result =
      .error ⟨"ConnectionError", "refused", none⟩ ∧
    (run ⟨false, "xn", "xp", none, none, true, none, none⟩
      ⟨.ok (none, []), .error ⟨"ConnectionError", "refused", none⟩, .ok ([], none),
        none, none, true, some ⟨"PermissionError", "unlink denied", none⟩⟩).events
      = [] ∧
    (run ⟨false, "xn", "xp", none, none, true, none, none⟩
      ⟨.ok (none, []), .error ⟨"ConnectionError", "refused", none⟩, .ok ([], none),
        none, none, true, some ⟨"PermissionError", "unlink denied", none⟩⟩).raised
      = some ⟨"PermissionError", "unlink denied", none⟩ :=
  ⟨rfl, rfl, rfl⟩

/-- C10 amended: when the backend request preceding the transfer raises —
create_artifact_manifest on the pre-addressed (md5) path, or get_project /
upload_urls_async on the classic path — the exception propagates out of push
(result = error) after emitting only the outermost SRP termerror, with the file not
added to the failed set and no per-file upload error message; and, provided the cleanup
remove step does not itself raise, it propagates out of run (raised = the same
exception) after a single failure completion event is enqueued. When the cleanup remove
raises, no event is enqueued and the remove exception propagates instead (see the
counterexample). -/
theorem C10_backend_exception_propagates (silent : Bool) (sn sp : String)
    (aid : Option String) (cp : Bool) (dg : Option String) (m proj : String) (e : Exc)
    (cm : Except Exc (Option String × List String)) (gp : Except Exc String)
    (uu : Except Exc (List String × Option String)) (opf upf : Option Exc) (fe : Bool) :
    (push ⟨silent, sn, sp, aid, some m, cp, none, dg⟩
        ⟨.error e, gp, uu, opf, upf, fe, none⟩ =
      ⟨.error e, ⟨[], [], [TermMsg.srpException e.msg], 0⟩⟩ ∧
     (run ⟨silent, sn, sp, aid, some m, cp, none, dg⟩
        ⟨.error e, gp, uu, opf, upf, fe, none⟩).events = [false] ∧
     (run ⟨silent, sn, sp, aid, some m, cp, none, dg⟩
        ⟨.error e, gp, uu, opf, upf, fe, none⟩).raised = some e) ∧
    (push ⟨silent, sn, sp, aid, none, cp, none, dg⟩
        ⟨cm, .error e, uu, opf, upf, fe, none⟩ =
      ⟨.error e, ⟨[], [], [TermMsg.srpException e.msg], 0⟩⟩ ∧
     (run ⟨silent, sn, sp, aid, none, cp, none, dg⟩
        ⟨cm, .error e, uu, opf, upf, fe, none⟩).events = [false] ∧
     (run ⟨silent, sn, sp, aid, none, cp, none, dg⟩
        ⟨cm, .error e, uu, opf, upf, fe, none⟩).raised = some e) ∧
    (push ⟨silent, sn, sp, aid, none, cp, none, dg⟩
        ⟨cm, .ok proj, .error e, opf, upf, fe, none⟩ =
      ⟨.error e, ⟨[], [], [TermMsg.srpException e.msg], 0⟩⟩ ∧
     (run ⟨silent, sn, sp, aid, none, cp, none, dg⟩
        ⟨cm, .ok proj, .error e, opf, upf, fe, none⟩).events = [false] ∧
     (run ⟨silent, sn, sp, aid, none, cp, none, dg⟩
        ⟨cm, .ok proj, .error e, opf, upf, fe, none⟩).raised = some e) := by
  refine ⟨⟨rfl, ?_, ?_⟩, ⟨rfl, ?_, ?_⟩, ⟨rfl, ?_, ?_⟩⟩ <;>
    cases h : cp && fe <;>
    simp [run, push, h, successOf, raisedOf]

/-- C7: upsert_artifact and finish_artifact fail fast with a type/contract error exactly
when there is neither an ambient run group nor an explicit distributed id; with a group
or with an explicit distributed id, both operations are submitted. -/
theorem C7_upsert_finish_contract (g d : Option String) :
    (upsert_artifact g d = .typeError ↔ g = none ∧ d = none) ∧
    (finish_artifact g d = .typeError ↔ g = none ∧ d = none) ∧
    (∀ x, upsert_artifact (some x) d = .submitted ∧
      finish_artifact (some x) d = .submitted) ∧
    (∀ y, upsert_artifact g (some y) = .submitted ∧
      finish_artifact g (some y) = .submitted) := by
  cases g <;> cases d <;> simp [upsert_artifact, finish_artifact]

lemma waitPoll_timeout (terminal : Nat → Bool) (tmo pi : Nat)
    (h : ∀ t, t ≤ tmo → terminal t = false) :
    ∀ fuel t, t ≤ tmo →
      ∃ el, el ≤ tmo ∧ waitPoll terminal tmo pi fuel t = .raised .waitTimeoutError el := by
  intro fuel
  induction fuel with
  | zero => exact fun t ht => ⟨t, ht, rfl⟩
  | succ n ih =>
    intro t ht
    by_cases hto : tmo ≤ t
    · exact ⟨t, ht, by simp [waitPoll, h t ht, hto]⟩
    · have hmin : min pi (tmo - t) ≤ tmo - t := Nat.min_le_right _ _
      obtain ⟨el, hel, heq⟩ := ih (t + min pi (tmo - t)) (by omega)
      exact ⟨el, hel, by simp [waitPoll, h t ht, hto]; exact heq⟩

/-- C8: when the artifact is not terminal at any time up tmo the deadline, wait raises a
WaitTimeoutError: with timeout 0 it raises immediately at elapsed time 0 (no polling
sleep), with any timeout it raises at an elapsed time bounded by the timeout (it never
sleeps through a full polling round past the deadline), and the WaitTimeoutError is
distinct from a transfer failure. -/
theorem C8_wait_timeout (terminal : Nat → Bool) (tmo pollInt : Nat)
    (h : ∀ t, t ≤ tmo → terminal t = false) :
    (wait terminal 0 pollInt = .raised .waitTimeoutError 0) ∧
    (∃ el, el ≤ tmo ∧ wait terminal tmo pollInt = .raised .waitTimeoutError el) ∧
    ArtifactError.waitTimeoutError ≠ ArtifactError.transferFailure := by
  refine ⟨?_, ?_, by simp⟩
  · simp [wait, waitPoll, h 0 (Nat.zero_le tmo)]
  · exact waitPoll_timeout terminal tmo pollInt h (tmo + 1) 0 (Nat.zero_le tmo)

/-- C8 witness: a never-terminal artifact with timeout 10 and poll interval 3. -/
theorem C8_wait_timeout_witness :
    (wait (fun _ => false) 0 3 = .raised .waitTimeoutError 0) ∧
    (∃ el, el ≤ 10 ∧ wait (fun _ => false) 10 3 = .raised .waitTimeoutError el) ∧
    ArtifactError.waitTimeoutError ≠ ArtifactError.transferFailure :=
  C8_wait_timeout (fun _ => false) 10 3 (fun _ _ => rfl)

/-- Invariant of the process-wide dedup state: no digest appears twice in the upload
log, and every uploaded digest is reserved in the cache. -/
def DedupInv (s : DedupState) : Prop :=
  s.uploads.Nodup ∧ ∀ x ∈ s.uploads, x ∈ s.cache

lemma uploadStep_inv (s : DedupState) (e : ManifestEntry) (h : DedupInv s) :
    DedupInv (uploadStep s e) := by
  obtain ⟨hnd, hsub⟩ := h
  cases href : e.ref with
  | some r => simpa [uploadStep, href] using ⟨hnd, hsub⟩
  | none =>
    cases hdig : e.digest with
    | none => simpa [uploadStep, href, hdig] using ⟨hnd, hsub⟩
    | some d =>
      by_cases hd : d ∈ s.cache
      · simpa [uploadStep, href, hdig, hd] using ⟨hnd, hsub⟩
      · have hdu : d ∉ s.uploads := fun hmem => hd (hsub d hmem)
        refine ⟨?_, ?_⟩
        · simpa [uploadStep, href, hdig, hd, List.nodup_append] using ⟨hnd, hdu⟩
        · intro x hx
          simp only [uploadStep, href, hdig, if_neg hd, List.mem_append,
            List.mem_singleton] at hx ⊢
          rcases hx with hx | hx
          · exact List.mem_cons_of_mem d (hsub x hx)
          · exact hx ▸ List.mem_cons_self d s.cache

lemma logArtifact_inv (m : List ManifestEntry) :
    ∀ s : DedupState, DedupInv s → DedupInv (logArtifact s m) := by
  induction m with
  | nil => exact fun s h => h
  | cons e rest ih => exact fun s h => ih (uploadStep s e) (uploadStep_inv s e h)

lemma runTrace_inv (ms : List (List ManifestEntry)) :
    ∀ s : DedupState, DedupInv s → DedupInv (runTrace s ms) := by
  induction ms with
  | nil => exact fun s h => h
  | cons m rest ih => exact fun s h => ih (logArtifact s m) (logArtifact_inv m s h)

/-- C1: core dedup invariant. First, the two-artifact scenario of test_local_references:
with a fresh dedup state, adding content with digest dg to a first artifact yields an
entry with ref = null; after that artifact is logged, adding a source with the same
digest to a second, independent artifact yields a reference entry (non-null ref), while
the first artifact's entry is the unchanged value with ref = null. Second, the global
invariant: over any process trace of logged artifacts, each digest is uploaded at most
once. -/
theorem C1_dedup_invariant (p1 p2 dg : String) :
    (addFile [] [] p1 dg = .ok ⟨p1, some dg, none, 0, none⟩) ∧
    (addFile [] (logArtifact ⟨[], []⟩ [⟨p1, some dg, none, 0, none⟩]).cache p2 dg =
      .ok ⟨p2, some dg, some dg, 0, none⟩) ∧
    (∀ (ms : List (List ManifestEntry)) (d : String),
      (runTrace ⟨[], []⟩ ms).uploads.count d ≤ 1) := by
  refine ⟨by simp [addFile], by simp [addFile, logArtifact, uploadStep], ?_⟩
  intro ms d
  have h := runTrace_inv ms ⟨[], []⟩ ⟨List.nodup_nil, by simp⟩
  exact List.nodup_iff_count_le_one.mp h.1 d

end Wandb
